import Mathlib

/-!
Shallow embedding of the ACK engine core (src/ack.cpp, src/ack.h) and the
verification of the menu/session state machine claims.  Each definition is
translated from the named C++ function; line references are to src/ack.cpp
unless stated otherwise.
-/

namespace Ack

/-- Constant from src/ack.h:153 (`static const int kGrapsSize = 10`). -/
def kGrapsSize : Nat := 10

/-- Constant from src/ack.h:152 (`static const int kBlockSize = 10`). -/
def kBlockSize : Nat := 10

/-- Constant from src/ack.h:155 (`static const int kAckVersion = 20`). -/
def kAckVersion : Int := 20

/-! ## showOption (src/ack.cpp:389-451) -/

/-- The condition of the `if` guarding `n = n + mo` in `AckEngine::showOption`
(src/ack.cpp:390-393), before the outer negation: the option is *exempt* from
the highlight offset exactly when this evaluates to `true`. -/
def showOptionExempt (x : Nat) (registration advName : String) (passwordOk : Bool) : Bool :=
  (x == 1) || (x == 12) ||
  ((registration == "none") && (x == 11)) ||
  ((x == 2) && (advName != "NONAME")) ||
  ((advName != "NONAME") && passwordOk)

/-- `n = n + mo` where `n` is a C++ `byte` and `mo` an `int16`: the sum is
computed in `int` and truncated back to the byte range on assignment. -/
def byteAdd (n : Nat) (mo : Int) : Nat := (((n : Int) + mo) % 256).toNat

/-- The intensity actually passed to the label painter by `showOption`
(src/ack.cpp:389-396): the base `n`, plus the offset `mo` unless the
exemption predicate holds. -/
def showOptionIntensity (x n : Nat) (mo : Int) (registration advName : String)
    (passwordOk : Bool) : Nat :=
  if showOptionExempt x registration advName passwordOk then n else byteAdd n mo

/-- The sequence of `displayText(x, y, n, text)` calls made by
`AckEngine::showOption` (src/ack.cpp:398-450), as `(x, y, intensity, text)`
tuples. -/
def showOption (x n : Nat) (mo : Int) (registration advName : String)
    (passwordOk : Bool) : List (Nat × Nat × Nat × String) :=
  let n1 := showOptionIntensity x n mo registration advName passwordOk
  match x with
  | 1 => [(8, 57, n1, "SELECT/CREATE"), (8, 65, n1, " ADVENTURE")]
  | 2 => [(48, 57, n1, "PLAY ADVENTURE")]
  | 3 => [(8, 81, n1, "CONFIGURE"), (8, 89, n1, " ADVENTURE")]
  | 4 => [(48, 81, n1, "IMPORT FILES,"), (48, 89, n1, "EXPORT REPORTS")]
  | 5 => [(8, 105, n1, "EDIT FONT")]
  | 6 => [(48, 105, n1, "EDIT GRAPHIC"), (48, 113, n1, " TILES")]
  | 7 => [(8, 129, n1, "EDIT OBJECTS,"), (8, 137, n1, "ITEMS, TERRAIN")]
  | 8 => [(48, 129, n1, "EDIT MESSAGES"), (48, 137, n1, "AND DIALOGUE")]
  | 9 => [(8, 153, n1, "EDIT MAPS AND"), (8, 161, n1, "REGIONS")]
  | 10 => [(48, 153, n1, "EDIT PEOPLE"), (48, 161, n1, "AND CREATURES")]
  | 11 =>
    if registration == "none" then
      [(8, 177, n1, "ORDERING"), (8, 185, n1, "INFORMATION")]
    else
      [(8, 177, n1, "EDIT MACROS"), (8, 185, n1, "(ADVANCED)")]
  | 12 => [(48, 177, n1, "QUIT"), (48, 185, n1, "EXIT TO DOS")]
  | _ => []

/-- The exemption predicate exactly as the spec sentence for claim C1 words
it: option 1; option 2 when NO adventure is loaded; option 12; option 11 when
unregistered; any option when an adventure is loaded and the password is
valid.  Stated from the spec for comparison with `showOptionExempt`. -/
def specC1Exempt (x : Nat) (registration advName : String) (passwordOk : Bool) : Bool :=
  (x == 1) ||
  ((x == 2) && (advName == "NONAME")) ||
  (x == 12) ||
  ((x == 11) && (registration == "none")) ||
  ((advName != "NONAME") && passwordOk)

/-- The exemption predicate as amended: identical to the spec sentence except
that option 2 is exempt when an adventure IS loaded (the code tests
`advName != "NONAME"`, not `==`). -/
def amendedC1Exempt (x : Nat) (registration advName : String) (passwordOk : Bool) : Bool :=
  (x == 1) ||
  ((x == 2) && (advName != "NONAME")) ||
  (x == 12) ||
  ((x == 11) && (registration == "none")) ||
  ((advName != "NONAME") && passwordOk)

/-- Claim C1, counterexample: with no adventure loaded (advName = "NONAME",
registration = "registered", password flag true), the spec predicate declares
option 2 exempt, but the code predicate does not, and `showOption` does add
the offset: base intensity 0 with offset 1 is painted as 1. -/
theorem c1_option2_exemption_counterexample :
    specC1Exempt 2 "registered" "NONAME" true = true ∧
    showOptionExempt 2 "registered" "NONAME" true = false ∧
    showOptionIntensity 2 0 1 "registered" "NONAME" true = 1 ∧
    showOption 2 0 1 "registered" "NONAME" true = [(48, 57, 1, "PLAY ADVENTURE")] := by
  refine ⟨by decide, by decide, rfl, rfl⟩

/-- Claim C1 as amended: for every option number, base intensity, offset and
session state, `showOption`'s painted intensity is `n + mo` (byte-truncated)
unless the option is option 1, option 2 when an adventure IS loaded, option
12, option 11 when unregistered, or any option when an adventure is loaded
and the password is valid; in those cases the base intensity `n` is used
unchanged. -/
theorem c1_exemption_amended (x n : Nat) (mo : Int) (registration advName : String)
    (passwordOk : Bool) :
    showOptionIntensity x n mo registration advName passwordOk =
      if amendedC1Exempt x registration advName passwordOk then n else byteAdd n mo := by
  have h : showOptionExempt x registration advName passwordOk =
      amendedC1Exempt x registration advName passwordOk := by
    unfold showOptionExempt amendedC1Exempt
    cases h1 : (x == 1) <;> cases h2 : (x == 12) <;> cases h3 : (x == 11) <;>
      cases h4 : (x == 2) <;> cases h5 : (registration == "none") <;>
      cases h6 : (advName != "NONAME") <;> cases passwordOk <;> rfl
  unfold showOptionIntensity
  rw [h]

/-! ## processParameters redirect decoding (src/ack.cpp:198-235) -/

/-- A 16×16 tile with 1-based legacy indexing, stored in a 17×17 grid
(`byte data[17][17]`, src/ack.h:68-70); modelled as a total lookup on the
two indices. -/
structure Grap256Unit where
  data : Nat → Nat → Nat

/-- The character-accumulation loop of `AckEngine::processParameters`
(src/ack.cpp:214-217): `for (_i = 1; _i <= len; _i++) _hres +=
(char)_graphic[1].data[_i+1][1];`, with the characters kept as byte values.
`i` ranges over `0 .. len-1` here, so the cell read is `data[i+2][1]`. -/
def hresLoop (g : Grap256Unit) (len : Nat) : List Nat :=
  (List.range len).foldl (fun acc i => acc ++ [g.data (i + 2) 1]) []

/-- The redirect-decoding step of `AckEngine::processParameters`
(src/ack.cpp:210-223), run after `loadAdventure` succeeds: when
`_graphic[2].data[1][1] != 255`, build the redirect name `_hres` from graphic
slot 1 and update `_passwordOk` from graphic slot 2's first byte by the two
sequential `if`s; otherwise nothing is decoded.  Returns
`some (nameBytes, newPasswordOk)` or `none`. -/
def processParamsRedirect (graphic : Nat → Grap256Unit) (passwordOk : Bool) :
    Option (List Nat × Bool) :=
  if (graphic 2).data 1 1 ≠ 255 then
    let hres := hresLoop (graphic 1) ((graphic 1).data 1 1)
    let pw1 := if (graphic 2).data 1 1 = 1 then false else passwordOk
    let pw2 := if (graphic 2).data 1 1 = 2 then true else pw1
    some (hres, pw2)
  else
    none

/-- Length-prefixed Pascal-string read of a tile along column 1: the first
byte `data[1][1]` is the length, the following cells `data[2][1]`,
`data[3][1]`, ... are the characters.  This is the decoding convention the
spec describes. -/
def pascalStringCol1 (g : Grap256Unit) : List Nat :=
  (List.range (g.data 1 1)).map (fun i => g.data (i + 2) 1)

/-- Modelled from the spec (claim C2): the claim says the redirect target
adventure name is decoded as a length-prefixed Pascal string from graphic
slot 2 (the same slot the password flag is read from). -/
def specC2RedirectName (graphic : Nat → Grap256Unit) : List Nat :=
  pascalStringCol1 (graphic 2)

/-- A concrete graphic table separating the two slots: slot 1 holds the
Pascal string "ABC" (length 3, bytes 65 66 67) and slot 2 holds the Pascal
string "XY" (length 2, bytes 88 89); slot 2's first byte 2 also acts as the
password flag. -/
def c2Graphic : Nat → Grap256Unit := fun slot =>
  if slot = 1 then
    ⟨fun r c =>
      if c = 1 then
        if r = 1 then 3 else if r = 2 then 65 else if r = 3 then 66 else
        if r = 4 then 67 else 0
      else 0⟩
  else if slot = 2 then
    ⟨fun r c =>
      if c = 1 then
        if r = 1 then 2 else if r = 2 then 88 else if r = 3 then 89 else 0
      else 0⟩
  else ⟨fun _ _ => 0⟩

/-- Claim C2, counterexample: on `c2Graphic` the engine decodes the redirect
name from graphic slot 1 (bytes of "ABC"), not from graphic slot 2 as the
claim states (which would give the bytes of "XY"); the password-flag part
(slot 2 first byte = 2 sets passwordOk to true) does follow the claim. -/
theorem c2_redirect_slot_counterexample :
    processParamsRedirect c2Graphic false = some ([65, 66, 67], true) ∧
    specC2RedirectName c2Graphic = [88, 89] ∧
    ([65, 66, 67] : List Nat) ≠ [88, 89] := by
  refine ⟨rfl, rfl, by decide⟩

/-- Auxiliary: the append-fold used by the `_hres` loop produces the mapped
list. -/
theorem foldl_append_singleton_eq_map (f : Nat → Nat) (l : List Nat) (acc : List Nat) :
    l.foldl (fun a i => a ++ [f i]) acc = acc ++ l.map f := by
  induction l generalizing acc with
  | nil => simp
  | cons x xs ih => simp [List.foldl_cons, ih]

/-- Claim C2 as amended: when the startup redirect decoding runs and graphic
slot 2's first byte is not the 255 sentinel, the redirect target name is the
length-prefixed Pascal string of graphic slot **1** (first byte = length,
following cells = characters), while the password-requirement flag is graphic
slot 2's first byte: value 1 sets passwordOk to false, value 2 sets it to
true, any other value leaves it unchanged. -/
theorem c2_redirect_decode_amended (graphic : Nat → Grap256Unit) (passwordOk : Bool)
    (h : (graphic 2).data 1 1 ≠ 255) :
    processParamsRedirect graphic passwordOk =
      some (pascalStringCol1 (graphic 1),
        if (graphic 2).data 1 1 = 2 then true
        else if (graphic 2).data 1 1 = 1 then false
        else passwordOk) := by
  unfold processParamsRedirect
  rw [if_pos h]
  have hl : hresLoop (graphic 1) ((graphic 1).data 1 1) = pascalStringCol1 (graphic 1) := by
    unfold hresLoop pascalStringCol1
    simpa using foldl_append_singleton_eq_map (fun i => (graphic 1).data (i + 2) 1)
      (List.range ((graphic 1).data 1 1)) []
  rw [hl]

/-- Witness for the amended claim C2 at the concrete table `c2Graphic`. -/
theorem c2_redirect_decode_amended_witness :
    processParamsRedirect c2Graphic false =
      some (pascalStringCol1 (c2Graphic 1),
        if (c2Graphic 2).data 1 1 = 2 then true
        else if (c2Graphic 2).data 1 1 = 1 then false
        else false) :=
  c2_redirect_decode_amended c2Graphic false (by decide)

/-! ## Graphic indirection table bounds (src/ack.cpp:162-163, 183-186) -/

/-- Number of `Grap256Unit` elements allocated for `_graphic` in
`AckEngine::allocateResources` (src/ack.cpp:162):
`new Grap256Unit[kGrapsSize + 1 + 4]`. -/
def graphicAllocLen : Nat := kGrapsSize + 1 + 4

/-- The `(graphicIndex, iconSlot)` pairs written by the indirection-table
build in `AckEngine::initGameState` (src/ack.cpp:182-186), with `_i = 0`:
`_graphic[241] = _icons[23]; _graphic[242] = _icons[9];
_graphic[243] = _icons[24]; _graphic[244] = _icons[11];`. -/
def graphicIndirectionWrites : List (Nat × Nat) :=
  [(241, 23), (242, 9), (243, 24), (244, 11)]

/-- Claim C3 evaluated on the code: the graphic array is allocated with
`kGrapsSize + 1 + 4 = 15` elements, yet every write of the indirection-table
build targets an index (241..244) that is NOT below the allocated length —
each of the four copies is an out-of-bounds write. -/
theorem c3_graphic_indirection_out_of_bounds :
    graphicAllocLen = 15 ∧
    (graphicIndirectionWrites.all (fun p => decide (graphicAllocLen ≤ p.1))) = true ∧
    ¬ 241 < graphicAllocLen := by
  refine ⟨rfl, by decide, by decide⟩

/-! ## MasterRec, loadConfig and the version banner
(src/ack.h:85-90, src/ack.cpp:316-337, 453-507) -/

/-- `MasterRec` (src/ack.h:85-90): 10 text-color bytes, an `int` ACK
version, and a 3×5×4 phase-color table; the byte arrays are modelled as
total lookups. -/
structure MasterRec where
  textColors : Nat → Nat
  ackVersion : Int
  phaseColors : Nat → Nat → Nat → Nat

/-- The observable resource actions of `AckEngine::loadConfig`
(src/ack.cpp:320-337): reading the master record, and calling
`loadBmpPalette(_ack.ackVersion, _advName, _systemDir)`. -/
inductive LoadEffect
  | recordRead (r : MasterRec)
  | paletteLoad (version : Int) (name : String)

/-- The session fields `loadConfig` touches: `_advName` and `_ack`. -/
structure ConfigState where
  advName : String
  ack : MasterRec

/-- `AckEngine::loadConfig` (src/ack.cpp:320-337) over a file system `fs`
mapping a path to the master record it holds (`none` = `open` fails): on
open failure of `<advName>MASTER.DAT` the adventure name is reset to
"NONAME" and the function returns; otherwise the record is read into `_ack`
and the adventure palette is loaded.  Returns the new state and the list of
resource actions performed. -/
def loadConfig (fs : String → Option MasterRec) (s : ConfigState) :
    ConfigState × List LoadEffect :=
  match fs (s.advName ++ "MASTER.DAT") with
  | none => ({ s with advName := "NONAME" }, [])
  | some r => ({ s with ack := r }, [.recordRead r, .paletteLoad r.ackVersion s.advName])

/-- Claim C4: for every adventure name, when opening `<advName>MASTER.DAT`
fails, `loadConfig` resets the session's adventure name to the sentinel
"NONAME", leaves the master record untouched, and performs no record read
and no palette load.  (`loadConfig` is a total function here: no exception
escapes to the menu state machine.) -/
theorem c4_loadConfig_failure_demotes (fs : String → Option MasterRec) (s : ConfigState)
    (h : fs (s.advName ++ "MASTER.DAT") = none) :
    (loadConfig fs s).1.advName = "NONAME" ∧
    (loadConfig fs s).1.ack = s.ack ∧
    (loadConfig fs s).2 = [] := by
  unfold loadConfig
  rw [h]
  exact ⟨rfl, rfl, rfl⟩

/-- A concrete master record for witnesses. -/
def sampleRec : MasterRec :=
  { textColors := fun _ => 7, ackVersion := 21, phaseColors := fun _ _ _ => 0 }

/-- Witness for claim C4: a file system with no files demotes the session
for the concrete adventure "FOO". -/
theorem c4_loadConfig_failure_demotes_witness :
    (loadConfig (fun _ => none) ⟨"FOO", sampleRec⟩).1.advName = "NONAME" ∧
    (loadConfig (fun _ => none) ⟨"FOO", sampleRec⟩).1.ack = sampleRec ∧
    (loadConfig (fun _ => none) ⟨"FOO", sampleRec⟩).2 = [] :=
  c4_loadConfig_failure_demotes (fun _ => none) ⟨"FOO", sampleRec⟩ rfl

/-- `AckEngine::version` (src/ack.cpp:316-318):
`Common::String::format("V%d.%d", v / 10, v % 10)` on a byte argument. -/
def version (v : Nat) : String :=
  "V" ++ toString (v / 10) ++ "." ++ toString (v % 10)

/-- Conversion of the C++ `int` field `_ack.ackVersion` to the `byte`
parameter of `version` at the call site (src/ack.cpp:480). -/
def byteOfInt (v : Int) : Nat := (v % 256).toNat

/-- The adventure-banner `displayText` calls of `AckEngine::redisplay`
(src/ack.cpp:477-483), as `(x, y, color, text)` tuples: with an adventure
loaded, the current-adventure line, plus the version-mismatch line exactly
when `_ack.ackVersion != kAckVersion`; otherwise the "No Adventure loaded."
line. -/
def redisplayBannerTexts (advName : String) (ack : MasterRec) :
    List (Nat × Nat × Nat × String) :=
  if advName ≠ "NONAME" then
    (11, 34, 1, "CURRENT ADVENTURE: " ++ advName) ::
    (if ack.ackVersion ≠ kAckVersion then
      [(15, 42, 1, "(CREATED WITH ACK " ++ version (byteOfInt ack.ackVersion) ++ ")")]
    else [])
  else
    [(20, 40, 1, "No Adventure loaded.")]

/-- Claim C8: (a) a master record whose `ackVersion` differs from
`kAckVersion` is not rejected — `loadConfig` stores it and keeps the
adventure name; (b) with an adventure loaded, the redisplay banner contains
the version-mismatch line exactly when `ackVersion ≠ kAckVersion`, formatted
by `version`; (c) `version 21 = "V2.1"`. -/
theorem c8_version_mismatch_banner (fs : String → Option MasterRec) (s : ConfigState)
    (r : MasterRec) (advName : String) (ack : MasterRec)
    (hload : fs (s.advName ++ "MASTER.DAT") = some r) (hadv : advName ≠ "NONAME") :
    ((loadConfig fs s).1.ack = r ∧ (loadConfig fs s).1.advName = s.advName) ∧
    ((15, 42, 1, "(CREATED WITH ACK " ++ version (byteOfInt ack.ackVersion) ++ ")") ∈
        redisplayBannerTexts advName ack ↔ ack.ackVersion ≠ kAckVersion) ∧
    version 21 = "V2.1" := by
  refine ⟨?_, ?_, rfl⟩
  · unfold loadConfig
    rw [hload]
    exact ⟨rfl, rfl⟩
  · unfold redisplayBannerTexts
    rw [if_pos hadv]
    by_cases hv : ack.ackVersion ≠ kAckVersion
    · simp [hv]
    · simp [hv]

/-- Witness for claim C8: the adventure "FOO" with `sampleRec` (version 21,
engine version 20) loads without rejection and paints the mismatch line
"(CREATED WITH ACK V2.1)". -/
theorem c8_version_mismatch_banner_witness :
    ((loadConfig (fun _ => some sampleRec) ⟨"FOO", sampleRec⟩).1.ack = sampleRec ∧
      (loadConfig (fun _ => some sampleRec) ⟨"FOO", sampleRec⟩).1.advName = "FOO") ∧
    ((15, 42, 1, "(CREATED WITH ACK " ++ version (byteOfInt sampleRec.ackVersion) ++ ")") ∈
        redisplayBannerTexts "FOO" sampleRec ↔ sampleRec.ackVersion ≠ kAckVersion) ∧
    version 21 = "V2.1" :=
  c8_version_mismatch_banner (fun _ => some sampleRec) ⟨"FOO", sampleRec⟩ sampleRec
    "FOO" sampleRec rfl (by decide)

/-! ## loadBmpPalette (src/ack.cpp:237-273) -/

/-- The observable actions of `AckEngine::loadBmpPalette`: the final
`setPalette` call with the converted 768-byte table, the `warning` on the
double open failure, and a `clearScreen` constructor that the function never
emits (claim C5 states no screen clear happens). -/
inductive PalEffect
  | setPalette (pal : List Nat)
  | warning (msg : String)
  | clearScreen
deriving DecidableEq

/-- The palette conversion loop of `loadBmpPalette` (src/ack.cpp:253-269):
256 RGB triples are read byte-wise from the file (a read past the end of the
stream yields 0) and each channel is scaled by 4 into a byte. -/
def palConvert (content : List Nat) : List Nat :=
  (List.range 256).flatMap (fun i =>
    [content.getD (3 * i) 0 * 4 % 256,
     content.getD (3 * i + 1) 0 * 4 % 256,
     content.getD (3 * i + 2) 0 * 4 % 256])

/-- `AckEngine::loadBmpPalette` (src/ack.cpp:237-273) over a file system
`fs` from path to file bytes: try `<sysdir><name>.PAL`; on open failure fall
back to `<sysdir>PALETTE.PAL`; if that also fails, record a warning and
return; otherwise convert the palette and hand it to the palette manager. -/
def loadBmpPalette (fs : String → Option (List Nat)) (version : Int)
    (name sysdir : String) : List PalEffect :=
  match fs (sysdir ++ name ++ ".PAL") with
  | some content => [.setPalette (palConvert content)]
  | none =>
    match fs (sysdir ++ "PALETTE.PAL") with
    | some content => [.setPalette (palConvert content)]
    | none => [.warning ("Could not open palette file " ++ sysdir ++ "PALETTE.PAL")]

/-- Claim C5: `loadBmpPalette` first tries `<sysdir><name>.PAL`; when that
open fails it falls back to `<sysdir>PALETTE.PAL` and applies that palette;
when both opens fail it records a warning and performs neither a
`setPalette` call nor a screen clear (the previously set palette stays in
effect). -/
theorem c5_loadBmpPalette_fallback (fs : String → Option (List Nat)) (version : Int)
    (name sysdir : String) (h1 : fs (sysdir ++ name ++ ".PAL") = none) :
    (∀ c, fs (sysdir ++ "PALETTE.PAL") = some c →
      loadBmpPalette fs version name sysdir = [.setPalette (palConvert c)]) ∧
    (fs (sysdir ++ "PALETTE.PAL") = none →
      loadBmpPalette fs version name sysdir =
        [.warning ("Could not open palette file " ++ sysdir ++ "PALETTE.PAL")] ∧
      (∀ p, PalEffect.setPalette p ∉ loadBmpPalette fs version name sysdir) ∧
      PalEffect.clearScreen ∉ loadBmpPalette fs version name sysdir) := by
  constructor
  · intro c h2
    unfold loadBmpPalette
    rw [h1, h2]
  · intro h2
    unfold loadBmpPalette
    rw [h1, h2]
    refine ⟨rfl, ?_, ?_⟩
    · intro p hp
      simp at hp
    · simp

/-- Witness for claim C5 at a concrete file system holding only
`PALETTE.PAL` (fallback branch), and at the empty file system (double
failure branch). -/
theorem c5_loadBmpPalette_fallback_witness :
    loadBmpPalette (fun f => if f = "PALETTE.PAL" then some [9] else none) 20 "FOO" "" =
      [.setPalette (palConvert [9])] ∧
    loadBmpPalette (fun _ => none) 20 "FOO" "" =
      [.warning ("Could not open palette file " ++ "" ++ "PALETTE.PAL")] := by
  constructor
  · exact (c5_loadBmpPalette_fallback
      (fun f => if f = "PALETTE.PAL" then some [9] else none) 20 "FOO" "" (by decide)).1
      [9] (by decide)
  · exact ((c5_loadBmpPalette_fallback (fun _ => none) 20 "FOO" "" rfl).2 rfl).1

/-! ## menuSkinBmp (src/ack.cpp:275-306) -/

/-- One `memcpy` of a 320-byte scan line into the screen buffer
(src/ack.cpp:296-298), as a bulk update of the flat buffer function: indices
`dstOff .. dstOff+width-1` take the file bytes starting at `srcOff`, all
other indices keep their previous contents. -/
def writeRow (file : List Nat) (srcOff dstOff width : Nat) (buf : Nat → Nat) :
    Nat → Nat :=
  fun k => if dstOff ≤ k ∧ k < dstOff + width then file.getD (srcOff + (k - dstOff)) 0
           else buf k

/-- The row-copy loop of `menuSkinBmp` (src/ack.cpp:295-299) after `n`
iterations: iteration `i` reads input row `i` (width bytes at
`start + i*width`) and stores it at output row `height-1-i`. -/
def copyRows (file : List Nat) (start width height : Nat) :
    Nat → (Nat → Nat) → Nat → Nat
  | 0, buf => buf
  | Nat.succ i, buf =>
      writeRow file (start + i * width) ((height - 1 - i) * width) width
        (copyRows file start width height i buf)

/-- `AckEngine::menuSkinBmp` (src/ack.cpp:275-306) on an opened
`ACKDATA0.DAT` with contents `file`: the palette size is the header byte at
offset 50 (0 meaning 256), pixel data starts at byte `54 + paletteSize*4`,
and all 200 rows of 320 bytes are copied bottom-up into the screen buffer
`buf`. -/
def menuSkinBmp (file : List Nat) (buf : Nat → Nat) : Nat → Nat :=
  let i2 := if file.getD 50 0 = 0 then 256 else file.getD 50 0
  copyRows file (54 + i2 * 4) 320 200 200 buf

/-- After copying the first `n ≤ 200` rows, output row `199 - i` holds input
row `i`, for every `i < n`. -/
theorem copyRows_get (file : List Nat) (start : Nat) (buf : Nat → Nat) :
    ∀ n, n ≤ 200 → ∀ i, i < n → ∀ c, c < 320 →
      copyRows file start 320 200 n buf ((200 - 1 - i) * 320 + c) =
        file.getD (start + i * 320 + c) 0 := by
  intro n
  induction n with
  | zero => intro _ i hi; omega
  | succ m ih =>
    intro hn i hi c hc
    by_cases him : i = m
    · subst him
      unfold copyRows writeRow
      rw [if_pos (by constructor <;> omega)]
      congr 1
      omega
    · have him2 : i < m := by omega
      unfold copyRows writeRow
      rw [if_neg (by omega)]
      exact ih (by omega) i him2 c hc

/-- Claim C6: menu-skin decoding takes the palette-size byte at header
offset 50 (0 meaning 256), skips to byte `54 + paletteSize*4`, and stores
input row `i` at output row `height-1-i = 199-i`: the copied buffer holds
the rows in reverse vertical order. -/
theorem c6_menuSkin_row_reversal (file : List Nat) (buf : Nat → Nat) (i c : Nat)
    (hi : i < 200) (hc : c < 320) :
    menuSkinBmp file buf ((200 - 1 - i) * 320 + c) =
      file.getD
        (54 + (if file.getD 50 0 = 0 then 256 else file.getD 50 0) * 4 + i * 320 + c)
        0 := by
  unfold menuSkinBmp
  exact copyRows_get file _ buf 200 (by omega) i hi c hc

/-- A concrete 59-byte skin file: header byte 50 is 1 (palette size 1, so
pixel data starts at byte 58), and its first pixel byte is 77. -/
def skinFile : List Nat :=
  ((List.replicate 59 0).set 50 1).set 58 77

/-- Witness for claim C6: on `skinFile` the first stored pixel (input row 0,
column 0, value 77) appears at output row 199 — the last row of the decoded
buffer. -/
theorem c6_menuSkin_row_reversal_witness :
    menuSkinBmp skinFile (fun _ => 0) ((200 - 1 - 0) * 320 + 0) = 77 := by
  have h := c6_menuSkin_row_reversal skinFile (fun _ => 0) 0 0 (by decide) (by decide)
  rw [h]
  rfl

/-! ## Quit accelerator (src/ack.cpp:618-676, 533-582, 641-644) -/

/-- `AckEngine::mouseIn` (src/ack.cpp:641-644): inclusive on all four
bounds. -/
def mouseIn (mouseX mouseY : Int) (x1 y1 x2 y2 : Int) : Bool :=
  decide (mouseX ≥ x1 ∧ mouseX ≤ x2 ∧ mouseY ≥ y1 ∧ mouseY ≤ y2)

/-- `AckEngine::checkMouseClick` (src/ack.cpp:618-626): a click inside the
fixed quit hit-rectangle `(48,177)-(64,185)` sets `_menuCmd` to the quit
command; any other click leaves `_menuCmd` unchanged. -/
def checkMouseClick (mouseX mouseY : Int) (menuCmd : Char) : Char :=
  if mouseIn mouseX mouseY 48 177 64 185 then 'q' else menuCmd

/-- The sub-mode dispatch outcomes of `AckEngine::processMenuCommand`. -/
inductive MenuDispatch
  | noAction
  | adventureSelection
  | adventurePlay
deriving DecidableEq

/-- `AckEngine::processMenuCommand` (src/ack.cpp:646-676): on the quit
commands (the `'q'` and `'Q'` cases fall through to the same branch)
`_quitTime` is set; on the commit key the highlighted option is dispatched
(option 1 always, option 2 only with an adventure loaded, option 12 sets
`_quitTime`); every other command is ignored.  Returns the new `_quitTime`
and the dispatch. -/
def processMenuCommand (menuCmd : Char) (whatOpt : Int) (advName : String)
    (quitTime : Bool) : Bool × MenuDispatch :=
  if menuCmd = 'q' ∨ menuCmd = 'Q' then (true, .noAction)
  else if menuCmd = '\r' then
    if whatOpt = 1 then (quitTime, .adventureSelection)
    else if whatOpt = 2 then
      if advName ≠ "NONAME" then (quitTime, .adventurePlay) else (quitTime, .noAction)
    else if whatOpt = 12 then (true, .noAction)
    else (quitTime, .noAction)
  else (quitTime, .noAction)

/-- The guard of the outer menu loop (`while (!_quitTime)`,
src/ack.cpp:581): the loop runs another iteration exactly when this is
`true`. -/
def menuLoopContinues (quitTime : Bool) : Bool := !quitTime

/-- Claim C7: a `'q'` or `'Q'` menu command sets the quit flag and falsifies
the menu-loop guard for every highlighted option (including disabled ones)
and every session state; and a mouse click inside the fixed quit
hit-rectangle turns the pending command into `'q'`, which then also quits. -/
theorem c7_quit_accelerator (whatOpt : Int) (advName : String) (quitTime : Bool)
    (mouseX mouseY : Int) (menuCmd : Char)
    (hx1 : 48 ≤ mouseX) (hx2 : mouseX ≤ 64) (hy1 : 177 ≤ mouseY) (hy2 : mouseY ≤ 185) :
    (processMenuCommand 'q' whatOpt advName quitTime).1 = true ∧
    (processMenuCommand 'Q' whatOpt advName quitTime).1 = true ∧
    menuLoopContinues (processMenuCommand 'q' whatOpt advName quitTime).1 = false ∧
    menuLoopContinues (processMenuCommand 'Q' whatOpt advName quitTime).1 = false ∧
    checkMouseClick mouseX mouseY menuCmd = 'q' ∧
    (processMenuCommand (checkMouseClick mouseX mouseY menuCmd) whatOpt advName
      quitTime).1 = true := by
  have hin : mouseIn mouseX mouseY 48 177 64 185 = true := by
    unfold mouseIn
    exact decide_eq_true ⟨hx1, hx2, hy1, hy2⟩
  have hclick : checkMouseClick mouseX mouseY menuCmd = 'q' := by
    unfold checkMouseClick
    rw [hin]
    rfl
  have hq : (processMenuCommand 'q' whatOpt advName quitTime).1 = true := by
    unfold processMenuCommand
    rw [if_pos (Or.inl rfl : ('q' : Char) = 'q' ∨ ('q' : Char) = 'Q')]
  have hQ : (processMenuCommand 'Q' whatOpt advName quitTime).1 = true := by
    unfold processMenuCommand
    rw [if_pos (Or.inr rfl : ('Q' : Char) = 'q' ∨ ('Q' : Char) = 'Q')]
  refine ⟨hq, hQ, ?_, ?_, hclick, ?_⟩
  · rw [hq]
    rfl
  · rw [hQ]
    rfl
  · rw [hclick]
    exact hq

/-- Witness for claim C7 at a concrete state: option 5 highlighted (a
content-gated option, disabled because no adventure is loaded) and a click
at (50, 180) inside the quit rectangle. -/
theorem c7_quit_accelerator_witness :
    (processMenuCommand 'q' 5 "NONAME" false).1 = true ∧
    (processMenuCommand 'Q' 5 "NONAME" false).1 = true ∧
    menuLoopContinues (processMenuCommand 'q' 5 "NONAME" false).1 = false ∧
    menuLoopContinues (processMenuCommand 'Q' 5 "NONAME" false).1 = false ∧
    checkMouseClick 50 180 '\x00' = 'q' ∧
    (processMenuCommand (checkMouseClick 50 180 '\x00') 5 "NONAME" false).1 = true :=
  c7_quit_accelerator 5 "NONAME" false 50 180 '\x00'
    (by decide) (by decide) (by decide) (by decide)

/-! ## Icon normalization (src/ack.cpp:462-470) -/

/-- The marker-clear pass of `AckEngine::redisplay` (src/ack.cpp:463-470):
for every icon slot `1..maxIcons` and every cell of the 1-based 16×16 grid,
a byte equal to 222 is replaced by 0; all other cells are untouched.  The
icon table is modelled as a total lookup `slot → row → col → byte`. -/
def normalizeIcons (maxIcons : Nat) (icons : Nat → Nat → Nat → Nat) :
    Nat → Nat → Nat → Nat :=
  fun i r c =>
    if 1 ≤ i ∧ i ≤ maxIcons ∧ 1 ≤ r ∧ r ≤ 16 ∧ 1 ≤ c ∧ c ≤ 16 ∧ icons i r c = 222
    then 0 else icons i r c

/-- Claim C9: the `222 → 0` marker-clear pass is idempotent — applying it
twice to any icon table (for any capacity) yields the same table as applying
it once. -/
theorem c9_normalize_idempotent (maxIcons : Nat) (icons : Nat → Nat → Nat → Nat) :
    normalizeIcons maxIcons (normalizeIcons maxIcons icons) =
      normalizeIcons maxIcons icons := by
  funext i r c
  unfold normalizeIcons
  split_ifs <;> omega

/-! ## Registration invariant (src/ack.cpp:69-81, 509-512, 437-445) -/

/-- The value `initVars` assigns to `_registration` (src/ack.cpp:75). -/
def initRegistration : String := "registered"

/-- `AckEngine::checkRegistration` (src/ack.cpp:509-512): unconditionally
sets `_registration` to "REGISTERED", whatever it was before. -/
def checkRegistration (registration : String) : String := "REGISTERED"

/-- The reachable values of `_registration`: it is assigned only in
`initVars` (src/ack.cpp:75) and `checkRegistration` (src/ack.cpp:511) — no
other statement in the repository writes the field — so every reachable
value arises from the initial value by zero or more `checkRegistration`
steps. -/
inductive RegReachable : String → Prop
  | init : RegReachable initRegistration
  | step (s : String) : RegReachable s → RegReachable (checkRegistration s)

/-- Claim C10: in every reachable engine state the registration field is
not "none"; consequently `showOption` paints option 11 with the "EDIT
MACROS"/"(ADVANCED)" labels, and the unregistered-option-11 clause of the
highlight-exemption predicate contributes nothing: for option 11 the
exemption reduces to the adventure-loaded-and-password clause. -/
theorem c10_registration_never_none (s : String) (hs : RegReachable s) :
    s ≠ "none" ∧
    (∀ n : Nat, ∀ mo : Int, ∀ advName : String, ∀ passwordOk : Bool,
      showOption 11 n mo s advName passwordOk =
        [(8, 177, showOptionIntensity 11 n mo s advName passwordOk, "EDIT MACROS"),
         (8, 185, showOptionIntensity 11 n mo s advName passwordOk, "(ADVANCED)")]) ∧
    (∀ advName : String, ∀ passwordOk : Bool,
      showOptionExempt 11 s advName passwordOk =
        ((advName != "NONAME") && passwordOk)) := by
  induction hs with
  | init =>
    refine ⟨by decide, ?_, ?_⟩
    · intro n mo advName passwordOk
      rfl
    · intro advName passwordOk
      rfl
  | step s hs ih =>
    refine ⟨by unfold checkRegistration; decide, ?_, ?_⟩
    · intro n mo advName passwordOk
      rfl
    · intro advName passwordOk
      rfl

/-- Witness for claim C10 at the initial registration value. -/
theorem c10_registration_never_none_witness :
    initRegistration ≠ "none" ∧
    (∀ n : Nat, ∀ mo : Int, ∀ advName : String, ∀ passwordOk : Bool,
      showOption 11 n mo initRegistration advName passwordOk =
        [(8, 177, showOptionIntensity 11 n mo initRegistration advName passwordOk,
           "EDIT MACROS"),
         (8, 185, showOptionIntensity 11 n mo initRegistration advName passwordOk,
           "(ADVANCED)")]) ∧
    (∀ advName : String, ∀ passwordOk : Bool,
      showOptionExempt 11 initRegistration advName passwordOk =
        ((advName != "NONAME") && passwordOk)) :=
  c10_registration_never_none initRegistration RegReachable.init

end Ack
